import Mathlib

/-!
Verification of the Sophia_Toolkit dashboard (src/app.py and
src/utils/data_loader.py) against its natural-language specification.

The development is a shallow embedding of the Python code:

* Python JSON values are embedded as the inductive type `Json`
  (numbers as rationals; object fields as an association list, keys
  unique as produced by the Python json parser).
* The file system content behind a loader call is embedded as
  `Document` (for the two whole-document loaders) and `LogFile` (for
  the line-delimited log loader).  The outcome of the Python calls
  `open(...)` and `json.load(...)` is represented directly:
  `Document.missing` stands for a path whose `open` raises
  `FileNotFoundError`, `Document.ioErr e` for any other exception on
  open or read (for example a permission error), `Document.invalid`
  for content on which `json.load` raises `JSONDecodeError`, and
  `Document.value j` for content that parses to the value `j`.
  A JSON text parser is deliberately not embedded; the parse outcome
  is the model's input, exactly the distinction the loader code
  branches on.
* Streamlit diagnostics (`st.warning` / `st.error`) are embedded as
  `Diag` values returned alongside the loader result; the page
  handlers are embedded as functions producing a `PageRun`: the list
  of rendered UI actions, the number of loader invocations performed,
  and whether an uncaught exception escaped the handler.
* The single-quote characters that the Python diagnostic strings put
  around key names are elided from the embedded message texts; no
  claim depends on them.
-/

/-- JSON values as produced by the Python json module. -/
inductive Json where
  | null
  | bool (b : Bool)
  | num (q : ℚ)
  | str (s : String)
  | arr (items : List Json)
  | obj (fields : List (String × Json))

/-- Python truthiness of a JSON value: `None`, `False`, `0`, the empty
string, the empty list and the empty dict are falsy. -/
def Json.truthy : Json → Bool
  | .null => false
  | .bool b => b
  | .num q => q != 0
  | .str s => s != ""
  | .arr items => !items.isEmpty
  | .obj fields => !fields.isEmpty

/-- Python `isinstance(data, dict)`. -/
def Json.isDict : Json → Bool
  | .obj _ => true
  | _ => false

/-- Python `k in data` for a dict (`False` for any non-dict value). -/
def Json.hasKey : Json → String → Bool
  | .obj fields, k => fields.any (fun p => p.1 == k)
  | _, _ => false

/-- Python `data.get(k, dflt)`: the value stored under `k` when `data`
is a dict containing `k`, and `dflt` otherwise. -/
def Json.get (j : Json) (k : String) (dflt : Json) : Json :=
  match j with
  | .obj fields =>
    match fields.find? (fun p => p.1 == k) with
    | some p => p.2
    | none => dflt
  | _ => dflt

/-- Observed file-system state behind one whole-document loader call,
classified by the outcome of `open` plus `json.load`. -/
inductive Document where
  | missing
  | ioErr (e : String)
  | invalid
  | value (j : Json)

/-- One physical line of the newline-delimited log file, classified by
the outcome of `line.strip()` plus `json.loads(line)`: whitespace-only,
non-blank but not valid JSON, or parsing to a value. -/
inductive LogLine where
  | blank
  | invalid
  | value (j : Json)

/-- Observed file-system state behind one log loader call. -/
inductive LogFile where
  | missing
  | ioErr (e : String)
  | lines (ls : List LogLine)

/-- One user-facing diagnostic: `warn` embeds `st.warning`, `err`
embeds `st.error`. -/
inductive Diag where
  | warn (msg : String)
  | err (msg : String)

/-- Path constant from src/app.py. -/
def SOPHIA_ETHICS_DB_PATH : String := "../Sophia_Alpha2/data/ethics_db.json"

/-- Path constant from src/app.py. -/
def SOPHIA_KG_PATH : String := "../Sophia_Alpha2/data/knowledge_graph.json"

/-- Path constant from src/app.py. -/
def SOPHIA_SYSTEM_LOG_PATH : String := "../Sophia_Alpha2/data/logs/system_events.log"

/-- Message of the schema warning in load_ethics_db. -/
def ethicsSchemaWarnMsg (p : String) : String :=
  "Warning: " ++ p ++ " does not contain the expected ethical_events key or is not a dictionary."

/-- Message of the missing-file error in load_ethics_db. -/
def ethicsNotFoundMsg (p : String) : String :=
  "Error: Ethics DB file not found at " ++ p ++ ". Please check the path."

/-- Message of the JSON-decode error shared by load_ethics_db and
load_knowledge_graph. -/
def decodeErrMsg (p : String) : String :=
  "Error: Could not decode JSON from " ++ p ++ ". The file might be corrupted or empty."

/-- Message of the catch-all error shared by all three loaders. -/
def unexpectedErrMsg (p e : String) : String :=
  "An unexpected error occurred while loading " ++ p ++ ": " ++ e

/-- Message of the schema warning in load_knowledge_graph. -/
def kgSchemaWarnMsg (p : String) : String :=
  "Warning: " ++ p ++ " does not contain nodes and edges keys or is not a dictionary."

/-- Message of the missing-file error in load_knowledge_graph. -/
def kgNotFoundMsg (p : String) : String :=
  "Error: Knowledge Graph file not found at " ++ p ++ ". Please check the path."

/-- Message of the missing-file error in load_system_event_log. -/
def logNotFoundMsg (p : String) : String :=
  "Error: System Event Log file not found at " ++ p ++ ". Please check the path."

/-- Message of the per-line decode warning in load_system_event_log;
`n` is the 1-based physical line number. -/
def logLineWarnMsg (p : String) (n : Nat) : String :=
  "Warning: Could not decode JSON from line " ++ toString n ++ " in " ++ p ++ ". Skipping line."

/-- Default value documented and returned by load_ethics_db on any
failure. -/
def ethicsDefault : Json := .obj [("ethical_events", .arr []), ("trend_analysis", .obj [])]

/-- Default value documented and returned by load_knowledge_graph on
any failure. -/
def kgDefault : Json := .obj [("nodes", .arr []), ("edges", .arr [])]

/-- Schema check of load_ethics_db, line 19 of data_loader.py:
`isinstance(data, dict) and "ethical_events" in data` (the code tests
the negation). -/
def ethicsSchemaOk (j : Json) : Bool := j.isDict && j.hasKey "ethical_events"

/-- Schema check of load_knowledge_graph, line 47 of data_loader.py. -/
def kgSchemaOk (j : Json) : Bool := j.isDict && j.hasKey "nodes" && j.hasKey "edges"

/-- Embeds load_ethics_db (data_loader.py lines 5-31): the result value
together with the diagnostics emitted during the call. -/
def load_ethics_db (p : String) : Document → Json × List Diag
  | .value j =>
    if ethicsSchemaOk j then (j, [])
    else (ethicsDefault, [.warn (ethicsSchemaWarnMsg p)])
  | .missing => (ethicsDefault, [.err (ethicsNotFoundMsg p)])
  | .invalid => (ethicsDefault, [.err (decodeErrMsg p)])
  | .ioErr e => (ethicsDefault, [.err (unexpectedErrMsg p e)])

/-- Embeds load_knowledge_graph (data_loader.py lines 33-59). -/
def load_knowledge_graph (p : String) : Document → Json × List Diag
  | .value j =>
    if kgSchemaOk j then (j, [])
    else (kgDefault, [.warn (kgSchemaWarnMsg p)])
  | .missing => (kgDefault, [.err (kgNotFoundMsg p)])
  | .invalid => (kgDefault, [.err (decodeErrMsg p)])
  | .ioErr e => (kgDefault, [.err (unexpectedErrMsg p e)])

/-- Embeds the per-line loop of load_system_event_log (data_loader.py
lines 74-79): `n` is the value of the `enumerate(f, 1)` counter at the
head line.  A blank line is appended to nothing and emits nothing; a
non-blank undecodable line emits the per-line warning and is skipped;
a decodable line appends its value. -/
def loadLogLines (p : String) : Nat → List LogLine → List Json × List Diag
  | _, [] => ([], [])
  | n, LogLine.blank :: rest => loadLogLines p (n + 1) rest
  | n, LogLine.invalid :: rest =>
    let r := loadLogLines p (n + 1) rest
    (r.1, Diag.warn (logLineWarnMsg p n) :: r.2)
  | n, LogLine.value j :: rest =>
    let r := loadLogLines p (n + 1) rest
    (j :: r.1, r.2)

/-- Embeds load_system_event_log (data_loader.py lines 61-86). -/
def load_system_event_log (p : String) : LogFile → List Json × List Diag
  | .lines ls => loadLogLines p 1 ls
  | .missing => ([], [.err (logNotFoundMsg p)])
  | .ioErr e => ([], [.err (unexpectedErrMsg p e)])

/-- One Streamlit rendering call performed by a page handler. -/
inductive RenderAction where
  | title (s : String)
  | warning (s : String)
  | errorBox (s : String)
  | infoBox (s : String)
  | subheader (s : String)
  | metric (label : String) (value : Json)
  | lineChart (rows : List ((Option ℚ) × Json))
  | dataframe (rows : List Json)
  | textArea (label content : String)

/-- Rendering of a loader diagnostic through the Streamlit host:
`st.warning` and `st.error` calls become UI output. -/
def Diag.render : Diag → RenderAction
  | .warn m => .warning m
  | .err m => .errorBox m

/-- Result of running one page handler: the UI actions performed in
order, how many loader invocations the run made, and whether an
uncaught exception escaped the handler. -/
structure PageRun where
  actions : List RenderAction
  calls : Nat
  crashed : Bool

/-- Two-digit zero padding for decimal formatting. -/
def pad2 (k : Nat) : String := if k < 10 then "0" ++ toString k else toString k

/-- Decimal rendering of a rational to 2 places, modelling the Python
format specifier .2f on a numeric value (ties of the underlying binary
float are not modelled; no claim depends on them). -/
def fmt2 (q : ℚ) : String :=
  let n : ℤ := round (q * 100)
  if n < 0 then "-" ++ toString (n.natAbs / 100) ++ "." ++ pad2 (n.natAbs % 100)
  else toString (n.natAbs / 100) ++ "." ++ pad2 (n.natAbs % 100)

/-- Python f-string formatting with .2f applied to an arbitrary value:
numbers and booleans format, every other type raises (TypeError or
ValueError), modelled as `none`. -/
def format2f : Json → Option String
  | .num q => some (fmt2 q)
  | .bool b => some (if b then "1.00" else "0.00")
  | _ => none

/-- Numeric sort key of the 14 digit characters of an ISO-8601 string;
for timestamps in the single zero-padded format
YYYY-MM-DDTHH:MM:SSZ this ordering agrees with chronological order. -/
def isoKey (ds : List Char) : ℚ :=
  ((ds.foldl (fun acc c => acc * 10 + (c.toNat - 48)) 0 : Nat) : ℚ)

/-- Recognizer for timestamps of the shape YYYY-MM-DDTHH:MM:SSZ,
returning their sort key. -/
def parseIso8601 (s : String) : Option ℚ :=
  match s.toList with
  | [y1, y2, y3, y4, a1, mo1, mo2, a2, d1, d2, t, h1, h2, a3, mi1, mi2, a4, se1, se2, z] =>
    if (a1 == '-' && a2 == '-' && t == 'T' && a3 == ':' && a4 == ':' && z == 'Z')
        && [y1, y2, y3, y4, mo1, mo2, d1, d2, h1, h2, mi1, mi2, se1, se2].all Char.isDigit then
      some (isoKey [y1, y2, y3, y4, mo1, mo2, d1, d2, h1, h2, mi1, mi2, se1, se2])
    else none
  | _ => none

/-- Model of pandas to_datetime applied to one cell.  The outer Option
is raising: an unparseable string or a non-time-like value raises,
which the surrounding try/except of the page converts into the generic
chart error.  The inner Option is the resulting time value: `none` is
NaT, produced for a missing cell (the Python float NaN a DataFrame puts
where a row lacks the column); numbers are taken as epoch offsets.
Only the single ISO format used by the repository data is recognised
for strings. -/
def toDatetime : Json → Option (Option ℚ)
  | .null => some none
  | .str s => (parseIso8601 s).map some
  | .num q => some (some q)
  | _ => none

/-- Conversion of one event row for the chart: the converted timestamp
cell paired with the final_score cell. -/
def convertRow (ev : Json) : Option ((Option ℚ) × Json) :=
  (toDatetime (ev.get "timestamp" .null)).map (fun k => (k, ev.get "final_score" .null))

/-- Conversion of the whole event column, raising (none) as soon as one
cell raises, as the vectorised pandas call does. -/
def allConvert : List Json → Option (List ((Option ℚ) × Json))
  | [] => some []
  | ev :: rest =>
    match convertRow ev, allConvert rest with
    | some r, some rs => some (r :: rs)
    | _, _ => none

/-- Comparison of converted time cells: NaT sorts last, as in the
pandas default na_position. -/
def tkLe : Option ℚ → Option ℚ → Bool
  | _, none => true
  | none, some _ => false
  | some a, some b => decide (a ≤ b)

/-- Row ordering used to sort the chart rows by converted timestamp. -/
def rowLe (a b : (Option ℚ) × Json) : Prop := tkLe a.1 b.1 = true

instance : DecidableRel rowLe := fun a b =>
  inferInstanceAs (Decidable (tkLe a.1 b.1 = true))

/-- Model of the DataFrame sort_values call on the timestamp column
(the sorting algorithm itself is not specified by the claims; rows
with equal keys are kept in order here, which is one admissible
outcome). -/
def sortRows (rows : List ((Option ℚ) × Json)) : List ((Option ℚ) × Json) :=
  List.insertionSort rowLe rows

/-- Python test `c in df.columns` for a DataFrame built from a list of
dict rows: the columns are the union of the row keys. -/
def dfHasColumn (evs : List Json) (c : String) : Bool := evs.any (fun ev => ev.hasKey c)

/-- Message of the generic except-branch error of the chart block (the
interpolated exception text is abstracted away). -/
def chartErrMsg : String := "An error occurred while preparing data for the chart."

/-- Message of the timestamp-column check, app.py line 53. -/
def tsMissingMsg : String := "Error: timestamp column missing in ethical events data."

/-- Message of the final_score-column check, app.py line 56. -/
def fsMissingMsg : String := "Error: final_score column missing in ethical events data."

/-- Chart section subheader, app.py line 62. -/
def chartTitle : String := "Ethical Score Over Time"

/-- Embeds the chart construction block of ethical_trends_page (app.py
lines 50-74, the try/except suite): DataFrame construction, the two
column checks, timestamp conversion, sorting, and the line chart.  A
value of ethical_events that is not a list of dict rows makes the
pandas pipeline raise, landing in the except branch; every exception
inside the suite is caught there, so this section never crashes the
page. -/
def chartSection (events : Json) : List RenderAction :=
  match events with
  | .arr evs =>
    if evs.all Json.isDict then
      if !(dfHasColumn evs "timestamp") then [.errorBox tsMissingMsg]
      else if !(dfHasColumn evs "final_score") then [.errorBox fsMissingMsg]
      else
        match allConvert evs with
        | some rows => [.subheader chartTitle, .lineChart (sortRows rows)]
        | none => [.errorBox chartErrMsg]
    else [.errorBox chartErrMsg]
  | _ => [.errorBox chartErrMsg]

/-- Warning shown by ethical_trends_page when no events are loaded,
app.py line 25. -/
def noEventsMsg : String := "No ethical events data loaded or data is empty. Cannot display trends."

/-- Info notice of the falsy trend_analysis branch, app.py line 40. -/
def noTrendMsg : String := "No trend analysis summary available in the data."

/-- Info notice of the empty-events recheck, app.py line 45. -/
def noEventsInfoMsg : String := "No ethical events recorded to display."

/-- Embeds the trend-summary block of ethical_trends_page (app.py lines
31-40).  Returns the actions of the block and whether the block raised:
the .2f format call on a non-numeric short_term_avg_score_t_weighted
value raises outside any try, crashing the page after the first metric
was already rendered. -/
def trendSection (trend_summary : Json) : List RenderAction × Bool :=
  if trend_summary.truthy then
    match format2f (trend_summary.get "short_term_avg_score_t_weighted" (.num 0)) with
    | some s =>
      ([.subheader "Trend Analysis Summary",
        .metric "Current Trend Direction" (trend_summary.get "current_trend_direction" (.str "N/A")),
        .metric "Short-term Avg Score (Time-Weighted)" (.str s)], false)
    | none =>
      ([.subheader "Trend Analysis Summary",
        .metric "Current Trend Direction" (trend_summary.get "current_trend_direction" (.str "N/A"))], true)
  else ([.infoBox noTrendMsg], false)

/-- Embeds ethical_trends_page (app.py lines 18-77).  The input is the
file-system state behind SOPHIA_ETHICS_DB_PATH at render time. -/
def ethical_trends_page (doc : Document) : PageRun :=
  let loaded := load_ethics_db SOPHIA_ETHICS_DB_PATH doc
  let ethics_data := loaded.1
  let acts := RenderAction.title "Ethical Trends Analysis" :: loaded.2.map Diag.render
  if !ethics_data.truthy || !(ethics_data.get "ethical_events" .null).truthy then
    ⟨acts ++ [.warning noEventsMsg], 1, false⟩
  else
    let trend := trendSection (ethics_data.get "trend_analysis" (.obj []))
    if trend.2 then ⟨acts ++ trend.1, 1, true⟩
    else
      let events := ethics_data.get "ethical_events" .null
      if !events.truthy then ⟨acts ++ trend.1 ++ [.infoBox noEventsInfoMsg], 1, false⟩
      else ⟨acts ++ trend.1 ++ chartSection events, 1, false⟩

/-- Guard of the combined-load-failure branch of
knowledge_graph_explorer_page, app.py line 85:
`not kg_data or ("nodes" not in kg_data and "edges" not in kg_data)`. -/
def kgGuard (kg : Json) : Bool := !kg.truthy || (!kg.hasKey "nodes" && !kg.hasKey "edges")

/-- Warning of the combined-load-failure branch, app.py line 88. -/
def kgLoadWarnMsg : String := "Knowledge graph data could not be loaded or is empty."

/-- Info notice of the zero-count recheck, app.py line 100. -/
def kgCheckInfoMsg : String := "Consider checking file paths or content if you expected data."

/-- Placeholder text of the visualization text area, app.py lines
104-107. -/
def vizText : String :=
  "Interactive graph visualization and browsing capabilities will be implemented here in a future update. Libraries like Streamlit Agraph, Pyvis, or Plotly could be used."

/-- Trailing actions of knowledge_graph_explorer_page, app.py lines
103-107. -/
def vizPlaceholder : List RenderAction :=
  [.subheader "Visualization", .textArea "Graph Visualization Placeholder" vizText]

/-- Python len() applied to an arbitrary value: defined for sequences,
strings and dicts, raising TypeError otherwise (modelled as none). -/
def Json.pyLen : Json → Option Nat
  | .arr items => some items.length
  | .obj fields => some fields.length
  | .str s => some s.length
  | _ => none

/-- Embeds knowledge_graph_explorer_page (app.py lines 79-112).  Line
99 short-circuits: when the displayed node and edge counts are both
zero the third conjunct calls load_knowledge_graph a second time; the
file-system state is taken to be unchanged within the single render.
A crash records the actions already rendered. -/
def knowledge_graph_explorer_page (doc : Document) : PageRun :=
  let loaded := load_knowledge_graph SOPHIA_KG_PATH doc
  let kg_data := loaded.1
  let acts := RenderAction.title "Knowledge Graph Explorer" :: loaded.2.map Diag.render
  if kgGuard kg_data then ⟨acts ++ [.warning kgLoadWarnMsg], 1, false⟩
  else
    match (kg_data.get "nodes" (.arr [])).pyLen with
    | none => ⟨acts, 1, true⟩
    | some num_nodes =>
      match (kg_data.get "edges" (.arr [])).pyLen with
      | none => ⟨acts, 1, true⟩
      | some num_edges =>
        let acts2 := acts ++ [.subheader "Graph Overview",
          .metric "Total Nodes" (.num (num_nodes : ℚ)),
          .metric "Total Edges" (.num (num_edges : ℚ))]
        if num_nodes == 0 && num_edges == 0 then
          let loaded2 := load_knowledge_graph SOPHIA_KG_PATH doc
          let acts3 := acts2 ++ loaded2.2.map Diag.render
          let acts4 := if !loaded2.1.truthy then acts3 ++ [.infoBox kgCheckInfoMsg] else acts3
          ⟨acts4 ++ vizPlaceholder, 2, false⟩
        else ⟨acts2 ++ vizPlaceholder, 1, false⟩

/-- Warning shown by system_event_log_viewer_page when the loaded
sequence is empty, app.py line 121. -/
def logEmptyMsg : String := "No system event log data loaded or the log is empty."

/-- Display-size constant, app.py line 14. -/
def NUM_LOG_ENTRIES_DISPLAY : Nat := 20

/-- Python list tail as produced by DataFrame.tail(n): the last n rows,
or all of them when fewer exist, in unchanged order. -/
def tailN (n : Nat) (l : List Json) : List Json := l.drop (l.length - n)

/-- Subheader of the log page, app.py line 125. -/
def logTailHeader : String :=
  "Last " ++ toString NUM_LOG_ENTRIES_DISPLAY ++ " Log Entries"

/-- Placeholder text of the future-enhancements text area, app.py
lines 139-142. -/
def futureText : String :=
  "Future versions of this tool will include capabilities to filter logs by severity (INFO, WARNING, ERROR), search by keywords, and select date ranges."

/-- Trailing actions of system_event_log_viewer_page, app.py lines
138-142. -/
def logFuture : List RenderAction :=
  [.subheader "Future Enhancements", .textArea "Filtering and Searching Placeholder" futureText]

/-- Positional-indexing test of a row on the nested-sequence
construction path of pandas: sequences and strings support len() and
integer indexing; every other parsed JSON value raises there. -/
def rowIndexable : Json → Bool
  | .arr _ => true
  | .str _ => true
  | _ => false

/-- Model of pandas DataFrame construction from a list of parsed rows
(pd.DataFrame(log_entries), app.py line 130, which sits outside any
try/except).  pandas dispatches on the first element: a mapping-first
list takes the list-of-dict path, which reads the keys of every
element and raises AttributeError at any non-mapping; a sequence-first
list takes the nested-row path, which indexes every element
positionally and raises on elements that are neither sequences nor
strings; a scalar-first list is treated as a single object column and
always constructs.  `false` means the construction raises and the
exception escapes the page handler. -/
def pdDataFrameOk : List Json → Bool
  | [] => true
  | Json.obj f :: t => (Json.obj f :: t).all Json.isDict
  | Json.arr a :: t => (Json.arr a :: t).all rowIndexable
  | _ => true

/-- Embeds system_event_log_viewer_page (app.py lines 114-142).  After
the emptiness guard the isinstance-and-nonempty test of line 129 is
always true (the loader returns a list and the guard ensured it is
non-empty); the subheader of line 125 is rendered before the DataFrame
is built, so a failing construction crashes the page after the
subheader and before the table and the placeholder section. -/
def system_event_log_viewer_page (lf : LogFile) : PageRun :=
  let loaded := load_system_event_log SOPHIA_SYSTEM_LOG_PATH lf
  let log_entries := loaded.1
  let acts := RenderAction.title "System Event Log Viewer" :: loaded.2.map Diag.render
  if log_entries.isEmpty then ⟨acts ++ [.warning logEmptyMsg], 1, false⟩
  else
    let acts2 := acts ++ [RenderAction.subheader logTailHeader]
    if pdDataFrameOk log_entries then
      ⟨acts2 ++ [.dataframe (tailN NUM_LOG_ENTRIES_DISPLAY log_entries)] ++ logFuture, 1, false⟩
    else ⟨acts2, 1, true⟩

/-- Recognizer of a table rendering call. -/
def RenderAction.isDataframe : RenderAction → Bool
  | .dataframe _ => true
  | _ => false

/-- Recognizer of a metric rendering call. -/
def RenderAction.isMetric : RenderAction → Bool
  | .metric _ _ => true
  | _ => false

/-- Success condition of load_ethics_db over the whole input space: the
document parses and passes the schema check; every other input is a
failure mode. -/
def ethicsDocOk : Document → Bool
  | .value j => ethicsSchemaOk j
  | _ => false

/-- Success condition of load_knowledge_graph over the whole input
space. -/
def kgDocOk : Document → Bool
  | .value j => kgSchemaOk j
  | _ => false

/-- Values of the decodable non-blank lines of a log file, in file
order: the sequence the log loader is specified to return. -/
def logValues : List LogLine → List Json
  | [] => []
  | LogLine.value j :: rest => j :: logValues rest
  | _ :: rest => logValues rest

/-- Physical 1-based positions (counting from `n` at the head) of the
non-blank undecodable lines: the lines the log loader is specified to
warn about. -/
def invalidLineNums : Nat → List LogLine → List Nat
  | _, [] => []
  | n, LogLine.invalid :: rest => n :: invalidLineNums (n + 1) rest
  | n, _ :: rest => invalidLineNums (n + 1) rest

/-- Formalization of the failure-case list of claim C2 exactly as
stated there: file does not exist, content not valid JSON, parsed
value not a mapping, or mapping lacking the ethical_events key.  This
definition follows the claim wording, to be compared with the
behaviour of the source; it deliberately omits the catch-all
unexpected-error branch of the code. -/
def c2ListedFailure (doc : Document) : Prop :=
  doc = .missing ∨ doc = .invalid ∨ ∃ j, doc = .value j ∧ ethicsSchemaOk j = false

/-- Failure-case list of claim C2 as amended: an unexpected read error
(for example an unreadable file) is also a default-returning case. -/
def c2AmendedFailure (doc : Document) : Prop :=
  doc = .missing ∨ doc = .invalid ∨ (∃ e, doc = .ioErr e)
    ∨ ∃ j, doc = .value j ∧ ethicsSchemaOk j = false

/-- File operations a loader can perform.  `writeOp` exists so that the
read-only behaviour of the loaders is a checkable property rather than
a vacuous one; no loader ever emits it. -/
inductive FileOp where
  | openRead (path : String)
  | readDoc
  | readLine
  | writeOp (path : String)

/-- Recognizer of a mutating file operation. -/
def FileOp.isWrite : FileOp → Bool
  | .writeOp _ => true
  | _ => false

/-- File operations performed by load_ethics_db and
load_knowledge_graph on their input (data_loader.py lines 16-18 and
44-46): open for reading, which raises for a missing or unreadable
path, then one full read feeding json.load.  Neither function contains
a write call. -/
def documentLoaderOps (p : String) : Document → List FileOp
  | .missing => [.openRead p]
  | .ioErr _ => [.openRead p]
  | .invalid => [.openRead p, .readDoc]
  | .value _ => [.openRead p, .readDoc]

/-- File operations performed by load_system_event_log (data_loader.py
lines 72-77): open for reading, then one read per physical line.  The
function contains no write call. -/
def logLoaderOps (p : String) : LogFile → List FileOp
  | .missing => [.openRead p]
  | .ioErr _ => [.openRead p]
  | .lines ls => .openRead p :: ls.map (fun _ => .readLine)

/-- Effect of one file operation on the observed state of the
document file it targets: reads leave the state unchanged; a write
would replace it (the replacement value is irrelevant because no
loader performs a write). -/
def applyFileOp (d : Document) : FileOp → Document
  | .writeOp _ => .invalid
  | _ => d

/-- Cumulative effect of a sequence of file operations on a document
file. -/
def applyFileOps (d : Document) (ops : List FileOp) : Document :=
  ops.foldl applyFileOp d

/-- Effect of one file operation on the observed state of the log
file. -/
def applyLogFileOp (lf : LogFile) : FileOp → LogFile
  | .writeOp _ => .missing
  | _ => lf

/-- Cumulative effect of a sequence of file operations on the log
file. -/
def applyLogFileOps (lf : LogFile) (ops : List FileOp) : LogFile :=
  ops.foldl applyLogFileOp lf

/-- First log line of the four-line example file of the specification. -/
def exLogLine1 : Json :=
  .obj [("timestamp", .str "2023-01-01T10:00:00Z"), ("event_type", .str "INFO"),
        ("message", .str "System started")]

/-- Second log line of the four-line example file. -/
def exLogLine2 : Json :=
  .obj [("timestamp", .str "2023-01-01T10:05:00Z"), ("event_type", .str "WARNING"),
        ("message", .str "Low disk space")]

/-- Fourth log line of the four-line example file. -/
def exLogLine4 : Json :=
  .obj [("timestamp", .str "2023-01-01T10:10:00Z"), ("event_type", .str "ERROR"),
        ("message", .str "Critical failure")]

/-- Four-line example log file of the specification: line 3 is the
non-JSON text line, the other three decode. -/
def exLogFile : LogFile :=
  .lines [.value exLogLine1, .value exLogLine2, .invalid, .value exLogLine4]

/-- Log file with 25 decodable entries, one per line, used to check
the tail display. -/
def tail25Log : LogFile :=
  .lines ((List.range 25).map (fun i => LogLine.value (.num (i : ℚ))))

/-- Two-line log file whose lines are both valid JSON — a mapping and
then a bare number — so the loader passes both through, but DataFrame
construction on the mapping-first mixed list raises. -/
def mixedRowsLog : LogFile :=
  .lines [.value (.obj [("a", .num 1)]), .value (.num 2)]

/-- Single ethics event of the C6 counterexample database. -/
def c6Event : Json :=
  .obj [("timestamp", .str "2023-01-01T12:00:00Z"), ("final_score", .num (9/10))]

/-- Ethics database with one event and no trend_analysis key,
matching the shape the claim C6 quantifies over. -/
def c6Db : Json := .obj [("ethical_events", .arr [c6Event])]

/-- Ethics event of the C6 witness database. -/
def c6WitnessEvent : Json :=
  .obj [("timestamp", .str "2024-06-15T08:30:00Z"), ("final_score", .num (1/2))]

/-- Ethics database with a non-empty event list and no trend_analysis
key, used to instantiate the amended C6 theorem. -/
def c6WitnessDb : Json := .obj [("ethical_events", .arr [c6WitnessEvent])]

/-- Event whose timestamp string is not parseable as a time value but
which contains both chart columns. -/
def c8BadEvent : Json :=
  .obj [("timestamp", .str "not a timestamp"), ("final_score", .num 1)]

/-- Later-dated event listed first, to exercise the chart sort. -/
def c8Event1 : Json :=
  .obj [("timestamp", .str "2023-01-01T12:05:00Z"), ("final_score", .num 7)]

/-- Earlier-dated event listed second. -/
def c8Event2 : Json :=
  .obj [("timestamp", .str "2023-01-01T12:00:00Z"), ("final_score", .num 8)]

/-- Converted chart rows of the two C8 witness events, in file order. -/
def c8Rows : List ((Option ℚ) × Json) :=
  [(some ((20230101120500 : Nat) : ℚ), .num 7),
   (some ((20230101120000 : Nat) : ℚ), .num 8)]

instance : IsTotal ((Option ℚ) × Json) rowLe := by
  constructor
  intro a b
  obtain ⟨ka, va⟩ := a
  obtain ⟨kb, vb⟩ := b
  unfold rowLe
  cases ka <;> cases kb <;> simp [tkLe]
  exact le_total _ _

instance : IsTrans ((Option ℚ) × Json) rowLe := by
  constructor
  intro a b c hab hbc
  obtain ⟨ka, va⟩ := a
  obtain ⟨kb, vb⟩ := b
  obtain ⟨kc, vc⟩ := c
  unfold rowLe at hab hbc ⊢
  cases ka <;> cases kb <;> cases kc <;> simp_all [tkLe]
  exact le_trans hab hbc

/-- Unfolding of the log line loop: the returned entries are the
values of the decodable non-blank lines in file order, and the
diagnostics are one per-line warning for each non-blank undecodable
line at its physical position. -/
theorem loadLogLines_eq (p : String) :
    ∀ (n : Nat) (ls : List LogLine),
      loadLogLines p n ls
        = (logValues ls, (invalidLineNums n ls).map (fun k => Diag.warn (logLineWarnMsg p k))) := by
  intro n ls
  induction ls generalizing n with
  | nil => rfl
  | cons head rest ih =>
    cases head <;> simp [loadLogLines, logValues, invalidLineNums, ih]

/-- A dict containing some key is Python-truthy. -/
theorem truthy_of_hasKey {j : Json} {k : String} (h : j.hasKey k = true) :
    j.truthy = true := by
  cases j with
  | obj fields =>
    simp only [Json.hasKey, List.any_eq_true] at h
    obtain ⟨x, hx, _⟩ := h
    cases fields with
    | nil => exact absurd hx (List.not_mem_nil x)
    | cons a rest => rfl
  | null => exact Bool.noConfusion h
  | bool b => exact Bool.noConfusion h
  | num q => exact Bool.noConfusion h
  | str s => exact Bool.noConfusion h
  | arr items => exact Bool.noConfusion h

/-- Python dict.get returns the supplied default when the key is
absent. -/
theorem get_eq_default {j : Json} {k : String} (h : j.hasKey k = false) (d : Json) :
    j.get k d = d := by
  cases j with
  | obj fields =>
    simp only [Json.hasKey] at h
    rw [List.any_eq_false] at h
    have hf : fields.find? (fun p => p.1 == k) = none := by
      rw [List.find?_eq_none]
      exact h
    simp [Json.get, hf]
  | null => rfl
  | bool b => rfl
  | num q => rfl
  | str s => rfl
  | arr items => rfl

/-- No branch of the chart block renders a metric. -/
theorem chartSection_any_metric (events : Json) :
    (chartSection events).any RenderAction.isMetric = false := by
  unfold chartSection
  cases events <;> simp [RenderAction.isMetric]
  split
  · split
    · simp [RenderAction.isMetric]
    · split
      · simp [RenderAction.isMetric]
      · split <;> simp [RenderAction.isMetric]
  · simp [RenderAction.isMetric]

/-- A sequence of non-mutating file operations leaves the document
file unchanged. -/
theorem applyFileOps_eq_self (d : Document) (ops : List FileOp)
    (h : ops.all (fun op => !op.isWrite) = true) : applyFileOps d ops = d := by
  induction ops with
  | nil => rfl
  | cons op rest ih =>
    rw [List.all_cons, Bool.and_eq_true] at h
    have hop : applyFileOp d op = d := by
      cases op with
      | writeOp q => exact absurd h.1 (by simp [FileOp.isWrite])
      | openRead q => rfl
      | readDoc => rfl
      | readLine => rfl
    simpa [applyFileOps, List.foldl, hop] using ih h.2

/-- A sequence of non-mutating file operations leaves the log file
unchanged. -/
theorem applyLogFileOps_eq_self (lf : LogFile) (ops : List FileOp)
    (h : ops.all (fun op => !op.isWrite) = true) : applyLogFileOps lf ops = lf := by
  induction ops with
  | nil => rfl
  | cons op rest ih =>
    rw [List.all_cons, Bool.and_eq_true] at h
    have hop : applyLogFileOp lf op = lf := by
      cases op with
      | writeOp q => exact absurd h.1 (by simp [FileOp.isWrite])
      | openRead q => rfl
      | readDoc => rfl
      | readLine => rfl
    simpa [applyLogFileOps, List.foldl, hop] using ih h.2

/-- Successful column conversion pairs each event with its final_score
cell in order. -/
theorem allConvert_map_snd :
    ∀ (evs : List Json) (rows : List ((Option ℚ) × Json)),
      allConvert evs = some rows →
      rows.map Prod.snd = evs.map (fun ev => ev.get "final_score" .null) := by
  intro evs
  induction evs with
  | nil => intro rows h; simp [allConvert] at h; simp [h.symm]
  | cons ev rest ih =>
    intro rows h
    simp only [allConvert] at h
    cases hc : convertRow ev with
    | none => simp [hc] at h
    | some r =>
      cases hr : allConvert rest with
      | none => simp [hc, hr] at h
      | some rs =>
        simp [hc, hr] at h
        subst h
        simp [ih rs hr]
        simp [convertRow] at hc
        obtain ⟨k, hk, hkr⟩ := hc
        simp [hkr.symm]

/-- C1: for every input (nonexistent file, unreadable file, invalid
JSON, wrong schema, or any other state), each of the three loaders is
a total function — every try/except path returns — and every failure
mode returns the loader's documented default: the ethics and knowledge
graph loaders return their default structure unless the document
parses and passes the schema check (in which case they pass the parsed
value through), and the log loader returns the decoded line values or,
on a file-level failure, the empty list. -/
theorem c1_loaders_total_and_default :
    ∀ (p : String) (doc : Document) (lf : LogFile),
      ((ethicsDocOk doc = false ∧ (load_ethics_db p doc).1 = ethicsDefault)
        ∨ ∃ j, doc = .value j ∧ ethicsSchemaOk j = true ∧ (load_ethics_db p doc).1 = j)
      ∧ ((kgDocOk doc = false ∧ (load_knowledge_graph p doc).1 = kgDefault)
        ∨ ∃ j, doc = .value j ∧ kgSchemaOk j = true ∧ (load_knowledge_graph p doc).1 = j)
      ∧ ((∃ ls, lf = .lines ls ∧ (load_system_event_log p lf).1 = logValues ls)
        ∨ (load_system_event_log p lf).1 = []) := by
  intro p doc lf
  refine ⟨?_, ?_, ?_⟩
  · cases doc with
    | value j =>
      by_cases hs : ethicsSchemaOk j = true
      · exact Or.inr ⟨j, rfl, hs, by simp [load_ethics_db, hs]⟩
      · exact Or.inl ⟨by simpa [ethicsDocOk] using hs,
          by simp [load_ethics_db, Bool.not_eq_true _ ▸ hs]⟩
    | missing => exact Or.inl ⟨rfl, rfl⟩
    | invalid => exact Or.inl ⟨rfl, rfl⟩
    | ioErr e => exact Or.inl ⟨rfl, rfl⟩
  · cases doc with
    | value j =>
      by_cases hs : kgSchemaOk j = true
      · exact Or.inr ⟨j, rfl, hs, by simp [load_knowledge_graph, hs]⟩
      · exact Or.inl ⟨by simpa [kgDocOk] using hs, by simp [load_knowledge_graph, hs]⟩
    | missing => exact Or.inl ⟨rfl, rfl⟩
    | invalid => exact Or.inl ⟨rfl, rfl⟩
    | ioErr e => exact Or.inl ⟨rfl, rfl⟩
  · cases lf with
    | lines ls =>
      exact Or.inl ⟨ls, rfl, by simp [load_system_event_log, loadLogLines_eq]⟩
    | missing => exact Or.inr rfl
    | ioErr e => exact Or.inr rfl

/-- C2 counterexample: an unreadable file (the catch-all except branch,
here a permission error) also makes load_ethics_db return the default,
although it is none of the four cases the claim lists, and there is no
parsed mapping it could return unchanged — so the list after "exactly
when" in the claim is incomplete. -/
theorem c2_counterexample :
    (load_ethics_db SOPHIA_ETHICS_DB_PATH (.ioErr "Permission denied")).1 = ethicsDefault
      ∧ ¬ c2ListedFailure (.ioErr "Permission denied")
      ∧ ¬ ∃ j : Json, Document.ioErr "Permission denied" = Document.value j := by
  refine ⟨rfl, ?_, ?_⟩
  · rintro (h | h | ⟨j, h, _⟩) <;> exact Document.noConfusion h
  · rintro ⟨j, h⟩
    exact Document.noConfusion h

/-- C2 as amended: load_ethics_db returns its default exactly when the
file does not exist, the content is not valid JSON, an unexpected read
error occurs (for example an unreadable file), the parsed value is not
a mapping, or the mapping lacks the ethical_events key; in every other
case it returns the parsed mapping unchanged (hence preserving
trend_analysis and all extra keys, including when trend_analysis is
absent). -/
theorem c2_ethics_default_exactly_when :
    ∀ (p : String) (doc : Document),
      (c2AmendedFailure doc ∧ (load_ethics_db p doc).1 = ethicsDefault)
      ∨ ((¬ c2AmendedFailure doc) ∧ ∃ j, doc = .value j ∧ ethicsSchemaOk j = true
          ∧ (load_ethics_db p doc).1 = j) := by
  intro p doc
  cases doc with
  | missing => exact Or.inl ⟨Or.inl rfl, rfl⟩
  | invalid => exact Or.inl ⟨Or.inr (Or.inl rfl), rfl⟩
  | ioErr e => exact Or.inl ⟨Or.inr (Or.inr (Or.inl ⟨e, rfl⟩)), rfl⟩
  | value j =>
    by_cases hs : ethicsSchemaOk j = true
    · refine Or.inr ⟨?_, j, rfl, hs, by simp [load_ethics_db, hs]⟩
      rintro (h | h | ⟨e, h⟩ | ⟨j2, h, hbad⟩)
      · exact Document.noConfusion h
      · exact Document.noConfusion h
      · exact Document.noConfusion h
      · cases h
        rw [hs] at hbad
        exact Bool.noConfusion hbad
    · refine Or.inl ⟨Or.inr (Or.inr (Or.inr ⟨j, rfl, by simpa using hs⟩)), ?_⟩
      simp [load_ethics_db, hs]

/-- C3: load_knowledge_graph returns the parsed mapping unchanged
exactly when it parses to a mapping containing both the nodes and the
edges key, and in every failure case (missing file, invalid JSON,
unexpected read error, non-mapping, or either key absent) it returns
the default. -/
theorem c3_kg_load_characterization :
    ∀ (p : String) (doc : Document),
      (kgDocOk doc = true ∧ ∃ j, doc = .value j ∧ (load_knowledge_graph p doc).1 = j)
      ∨ (kgDocOk doc = false ∧ (load_knowledge_graph p doc).1 = kgDefault) := by
  intro p doc
  cases doc with
  | missing => exact Or.inr ⟨rfl, rfl⟩
  | invalid => exact Or.inr ⟨rfl, rfl⟩
  | ioErr e => exact Or.inr ⟨rfl, rfl⟩
  | value j =>
    by_cases hs : kgSchemaOk j = true
    · exact Or.inl ⟨by simpa [kgDocOk] using hs, j, rfl, by simp [load_knowledge_graph, hs]⟩
    · exact Or.inr ⟨by simpa [kgDocOk] using hs, by simp [load_knowledge_graph, hs]⟩

/-- C4: the log loader returns exactly the values of the decodable
non-blank lines in file order, and emits one warning naming the
1-based physical line number of each non-blank undecodable line; on
the four-line example file of the specification (line 3 is not JSON)
it returns the three decoded objects in file order and warns about
line 3. -/
theorem c4_log_loader_per_line :
    (∀ (p : String) (ls : List LogLine),
      load_system_event_log p (.lines ls)
        = (logValues ls, (invalidLineNums 1 ls).map (fun k => Diag.warn (logLineWarnMsg p k))))
    ∧ (load_system_event_log SOPHIA_SYSTEM_LOG_PATH exLogFile).1
        = [exLogLine1, exLogLine2, exLogLine4]
    ∧ (load_system_event_log SOPHIA_SYSTEM_LOG_PATH exLogFile).1.length = 3
    ∧ (load_system_event_log SOPHIA_SYSTEM_LOG_PATH exLogFile).2
        = [Diag.warn (logLineWarnMsg SOPHIA_SYSTEM_LOG_PATH 3)] := by
  refine ⟨?_, rfl, rfl, rfl⟩
  intro p ls
  simp [load_system_event_log, loadLogLines_eq]

/-- C9: each loader performs only read operations on its file — the
operation traces contain no write — so the file state after a call is
the state before it, and a second call on that unchanged state returns
a result structurally identical to the first. -/
theorem c9_loaders_read_only_idempotent :
    ∀ (p : String) (doc : Document) (lf : LogFile),
      ((documentLoaderOps p doc).all (fun op => !op.isWrite) = true)
      ∧ ((logLoaderOps p lf).all (fun op => !op.isWrite) = true)
      ∧ applyFileOps doc (documentLoaderOps p doc) = doc
      ∧ applyLogFileOps lf (logLoaderOps p lf) = lf
      ∧ load_ethics_db p (applyFileOps doc (documentLoaderOps p doc)) = load_ethics_db p doc
      ∧ load_knowledge_graph p (applyFileOps doc (documentLoaderOps p doc))
          = load_knowledge_graph p doc
      ∧ load_system_event_log p (applyLogFileOps lf (logLoaderOps p lf))
          = load_system_event_log p lf := by
  intro p doc lf
  have hd : (documentLoaderOps p doc).all (fun op => !op.isWrite) = true := by
    cases doc <;> rfl
  have hl : (logLoaderOps p lf).all (fun op => !op.isWrite) = true := by
    cases lf with
    | lines ls => simp [logLoaderOps, FileOp.isWrite, List.all_eq_true]
    | missing => rfl
    | ioErr e => rfl
  have hde : applyFileOps doc (documentLoaderOps p doc) = doc := applyFileOps_eq_self _ _ hd
  have hle : applyLogFileOps lf (logLoaderOps p lf) = lf := applyLogFileOps_eq_self _ _ hl
  exact ⟨hd, hl, hde, hle, by rw [hde], by rw [hde], by rw [hle]⟩

/-- C10: the value load_knowledge_graph returns always contains both
the nodes and the edges key (by the schema check on success, in the
default on failure), so the combined-load-failure guard of
knowledge_graph_explorer_page — taken only when the value is falsy or
both keys are absent — evaluates to false on every loader output and
that branch is unreachable. -/
theorem c10_kg_keys_invariant :
    ∀ (p : String) (doc : Document),
      ((load_knowledge_graph p doc).1.hasKey "nodes" = true)
      ∧ ((load_knowledge_graph p doc).1.hasKey "edges" = true)
      ∧ kgGuard (load_knowledge_graph p doc).1 = false := by
  intro p doc
  cases doc with
  | missing => exact ⟨rfl, rfl, rfl⟩
  | invalid => exact ⟨rfl, rfl, rfl⟩
  | ioErr e => exact ⟨rfl, rfl, rfl⟩
  | value j =>
    by_cases hs : kgSchemaOk j = true
    · have hres : (load_knowledge_graph p (.value j)).1 = j := by
        simp [load_knowledge_graph, hs]
      rw [kgSchemaOk, Bool.and_eq_true, Bool.and_eq_true] at hs
      obtain ⟨⟨_, hn⟩, he⟩ := hs
      refine ⟨by rw [hres]; exact hn, by rw [hres]; exact he, ?_⟩
      rw [hres, kgGuard, truthy_of_hasKey hn, hn]
      rfl
    · have hres : (load_knowledge_graph p (.value j)).1 = kgDefault := by
        simp [load_knowledge_graph, hs]
      rw [hres]
      exact ⟨rfl, rfl, rfl⟩

/-- C5 counterexample: both lines of the mixed log are valid JSON, so
the loader passes them through and the loaded sequence is non-empty,
but DataFrame construction on the mapping-first mixed list raises
uncaught (app.py line 130 sits outside any try/except): the page
crashes after the subheader and no table of any kind is displayed —
so the last entries are not displayed, refuting the claim at this
input. -/
theorem c5_counterexample :
    (load_system_event_log SOPHIA_SYSTEM_LOG_PATH mixedRowsLog).1.isEmpty = false
    ∧ (system_event_log_viewer_page mixedRowsLog).crashed = true
    ∧ (system_event_log_viewer_page mixedRowsLog).actions.any RenderAction.isDataframe
        = false := ⟨rfl, rfl, rfl⟩

/-- C5 as amended: whenever the loaded log sequence is non-empty and
DataFrame construction on it succeeds (in particular whenever all
entries are mappings, the shape the spec gives log entries), the log
page renders exactly one table holding exactly the last
min(NUM_LOG_ENTRIES_DISPLAY, length) entries — a suffix of the loaded
sequence in file order, never more and never fewer — and nothing else
beyond the fixed title, loader diagnostics, subheader and placeholder;
a sequence on which the construction raises (for example a
mapping-first list containing a non-mapping) crashes the page before
any table is displayed. -/
theorem c5_log_tail_display :
    ∀ (lf : LogFile),
      (load_system_event_log SOPHIA_SYSTEM_LOG_PATH lf).1.isEmpty = false →
      pdDataFrameOk (load_system_event_log SOPHIA_SYSTEM_LOG_PATH lf).1 = true →
      (system_event_log_viewer_page lf).actions
        = RenderAction.title "System Event Log Viewer"
            :: (load_system_event_log SOPHIA_SYSTEM_LOG_PATH lf).2.map Diag.render
            ++ [RenderAction.subheader logTailHeader,
                RenderAction.dataframe
                  (tailN NUM_LOG_ENTRIES_DISPLAY (load_system_event_log SOPHIA_SYSTEM_LOG_PATH lf).1)]
            ++ logFuture
      ∧ (tailN NUM_LOG_ENTRIES_DISPLAY (load_system_event_log SOPHIA_SYSTEM_LOG_PATH lf).1).length
          = min NUM_LOG_ENTRIES_DISPLAY (load_system_event_log SOPHIA_SYSTEM_LOG_PATH lf).1.length
      ∧ List.IsSuffix
          (tailN NUM_LOG_ENTRIES_DISPLAY (load_system_event_log SOPHIA_SYSTEM_LOG_PATH lf).1)
          (load_system_event_log SOPHIA_SYSTEM_LOG_PATH lf).1 := by
  intro lf h hdf
  refine ⟨?_, ?_, ?_⟩
  · simp [system_event_log_viewer_page, h, hdf]
  · simp only [tailN, List.length_drop, NUM_LOG_ENTRIES_DISPLAY]
    omega
  · exact ⟨(load_system_event_log SOPHIA_SYSTEM_LOG_PATH lf).1.take
        ((load_system_event_log SOPHIA_SYSTEM_LOG_PATH lf).1.length - NUM_LOG_ENTRIES_DISPLAY),
      List.take_append_drop _ _⟩

/-- C5 witness: the 25-entry log renders the table of exactly its last
20 entries. -/
theorem c5_log_tail_display_witness :
    ((system_event_log_viewer_page tail25Log).actions
        = RenderAction.title "System Event Log Viewer"
            :: (load_system_event_log SOPHIA_SYSTEM_LOG_PATH tail25Log).2.map Diag.render
            ++ [RenderAction.subheader logTailHeader,
                RenderAction.dataframe
                  (tailN NUM_LOG_ENTRIES_DISPLAY
                    (load_system_event_log SOPHIA_SYSTEM_LOG_PATH tail25Log).1)]
            ++ logFuture
      ∧ (tailN NUM_LOG_ENTRIES_DISPLAY
            (load_system_event_log SOPHIA_SYSTEM_LOG_PATH tail25Log).1).length
          = min NUM_LOG_ENTRIES_DISPLAY
              (load_system_event_log SOPHIA_SYSTEM_LOG_PATH tail25Log).1.length
      ∧ List.IsSuffix
          (tailN NUM_LOG_ENTRIES_DISPLAY
            (load_system_event_log SOPHIA_SYSTEM_LOG_PATH tail25Log).1)
          (load_system_event_log SOPHIA_SYSTEM_LOG_PATH tail25Log).1)
    ∧ (load_system_event_log SOPHIA_SYSTEM_LOG_PATH tail25Log).1.length = 25
    ∧ (tailN NUM_LOG_ENTRIES_DISPLAY
          (load_system_event_log SOPHIA_SYSTEM_LOG_PATH tail25Log).1).length = 20 :=
  ⟨c5_log_tail_display tail25Log rfl rfl, rfl, rfl⟩

/-- C7 counterexample: on a missing knowledge-graph file the node and
edge counts are both zero, so line 99 of app.py evaluates its third
conjunct and the page invokes load_knowledge_graph a second time —
this render performs two full re-reads, not one. -/
theorem c7_counterexample :
    (knowledge_graph_explorer_page Document.missing).calls = 2 := rfl

/-- C7 as amended: the ethics page and the log page invoke their
loader exactly once per render on every input; the knowledge-graph
page invokes its loader once, except that it performs a second load
when the displayed node and edge counts are both zero, so each of its
renders performs one or two full re-reads. -/
theorem c7_loader_call_counts :
    ∀ (doc : Document) (lf : LogFile),
      (ethical_trends_page doc).calls = 1
      ∧ (system_event_log_viewer_page lf).calls = 1
      ∧ ((knowledge_graph_explorer_page doc).calls = 1
          ∨ (knowledge_graph_explorer_page doc).calls = 2) := by
  intro doc lf
  refine ⟨?_, ?_, ?_⟩
  · simp only [ethical_trends_page]
    repeat' first | rfl | split
  · simp only [system_event_log_viewer_page]
    repeat' first | rfl | split
  · simp only [knowledge_graph_explorer_page]
    repeat' first
      | exact Or.inl rfl
      | exact Or.inr rfl
      | split

/-- C6 counterexample: on a database with one ethics event and no
trend_analysis key, the page renders no metric at all — the falsy
trend_summary takes the st.info branch — so the claimed headline
metrics with default values (N/A and 0.00) are not rendered. -/
theorem c6_counterexample :
    (ethical_trends_page (.value c6Db)).actions.any RenderAction.isMetric = false
    ∧ RenderAction.infoBox noTrendMsg ∈ (ethical_trends_page (.value c6Db)).actions
    ∧ c6Db.get "ethical_events" Json.null = Json.arr [c6Event]
    ∧ c6Db.hasKey "trend_analysis" = false := by
  refine ⟨rfl, ?_, rfl, rfl⟩
  have h : (ethical_trends_page (.value c6Db)).actions
      = [RenderAction.title "Ethical Trends Analysis", RenderAction.infoBox noTrendMsg,
         RenderAction.subheader chartTitle,
         RenderAction.lineChart [(some ((20230101120000 : Nat) : ℚ), Json.num (9/10))]] := rfl
  rw [h]
  simp

/-- C6 as amended: for every ethics database whose ethical_events
value is truthy (in particular a non-empty sequence) and whose
trend_analysis key is absent, the trend page renders the
informational no-trend-summary notice in place of the headline
metrics — no metric is rendered at all — and completes without an
uncaught error; the N/A and 0 defaults apply only when trend_analysis
is present and non-empty but lacks the individual keys. -/
theorem c6_trend_absent_renders_info :
    ∀ (j : Json),
      ethicsSchemaOk j = true →
      (j.get "ethical_events" .null).truthy = true →
      j.hasKey "trend_analysis" = false →
      RenderAction.infoBox noTrendMsg ∈ (ethical_trends_page (.value j)).actions
      ∧ (ethical_trends_page (.value j)).actions.any RenderAction.isMetric = false
      ∧ (ethical_trends_page (.value j)).crashed = false := by
  intro j h1 h2 h3
  have h1' := h1
  rw [ethicsSchemaOk, Bool.and_eq_true] at h1'
  have ht : j.truthy = true := truthy_of_hasKey h1'.2
  have hload : load_ethics_db SOPHIA_ETHICS_DB_PATH (.value j) = (j, []) := by
    simp [load_ethics_db, h1]
  have htrend : j.get "trend_analysis" (Json.obj []) = Json.obj [] := get_eq_default h3 _
  have hrun : ethical_trends_page (.value j)
      = ⟨RenderAction.title "Ethical Trends Analysis"
           :: RenderAction.infoBox noTrendMsg
           :: chartSection (j.get "ethical_events" .null), 1, false⟩ := by
    have htr : trendSection (Json.obj []) = ([RenderAction.infoBox noTrendMsg], false) := rfl
    simp only [ethical_trends_page, hload]
    rw [htrend, htr]
    simp [ht, h2]
  refine ⟨?_, ?_, ?_⟩
  · rw [hrun]
    simp
  · rw [hrun]
    simp only [PageRun.actions, List.any_cons, chartSection_any_metric]
    rfl
  · rw [hrun]

/-- C6 witness: a concrete database with a non-empty event list and no
trend_analysis key renders the info notice, renders no metric, and
does not crash. -/
theorem c6_trend_absent_renders_info_witness :
    RenderAction.infoBox noTrendMsg ∈ (ethical_trends_page (.value c6WitnessDb)).actions
    ∧ (ethical_trends_page (.value c6WitnessDb)).actions.any RenderAction.isMetric = false
    ∧ (ethical_trends_page (.value c6WitnessDb)).crashed = false :=
  c6_trend_absent_renders_info c6WitnessDb rfl rfl rfl

/-- C8 counterexample: an event list whose single record contains both
the timestamp and the final_score key, but whose timestamp string is
not a parseable time value, makes the conversion raise: the page lands
in the generic except branch and renders no chart — contradicting the
claim that every event list with both keys present yields the sorted
chart. -/
theorem c8_counterexample :
    chartSection (.arr [c8BadEvent]) = [RenderAction.errorBox chartErrMsg]
    ∧ c8BadEvent.hasKey "timestamp" = true
    ∧ c8BadEvent.hasKey "final_score" = true := ⟨rfl, rfl, rfl⟩

/-- C8 as amended: for a non-empty list of event records (mappings),
if every record contains both timestamp and final_score and every
timestamp cell converts to a time value, the chart block renders the
line chart of all events sorted ascending by converted timestamp with
the final_score cells as the sole series; if timestamp is absent from
every record the block aborts with the timestamp-specific error; if
timestamp occurs but final_score is absent from every record it aborts
with the final_score-specific error.  A timestamp that fails time
conversion instead aborts with the generic chart error (see the
counterexample). -/
theorem c8_chart_characterization :
    ∀ (evs : List Json),
      evs.isEmpty = false →
      evs.all Json.isDict = true →
      ((∀ rows, evs.all (fun ev => ev.hasKey "timestamp" && ev.hasKey "final_score") = true →
          allConvert evs = some rows →
          chartSection (.arr evs)
            = [RenderAction.subheader chartTitle, RenderAction.lineChart (sortRows rows)]
          ∧ List.Perm (sortRows rows) rows
          ∧ List.Sorted rowLe (sortRows rows)
          ∧ List.Perm ((sortRows rows).map Prod.snd)
              (evs.map (fun ev => ev.get "final_score" Json.null)))
      ∧ (evs.all (fun ev => !ev.hasKey "timestamp") = true →
          chartSection (.arr evs) = [RenderAction.errorBox tsMissingMsg])
      ∧ (dfHasColumn evs "timestamp" = true →
          evs.all (fun ev => !ev.hasKey "final_score") = true →
          chartSection (.arr evs) = [RenderAction.errorBox fsMissingMsg])) := by
  intro evs hne hdict
  refine ⟨?_, ?_, ?_⟩
  · intro rows hkeys hconv
    have hhead : ∃ a rest, evs = a :: rest := by
      cases evs with
      | nil => exact Bool.noConfusion hne
      | cons a rest => exact ⟨a, rest, rfl⟩
    obtain ⟨a, rest, hcons⟩ := hhead
    have hka : (a.hasKey "timestamp" && a.hasKey "final_score") = true := by
      rw [hcons, List.all_cons, Bool.and_eq_true] at hkeys
      exact hkeys.1
    rw [Bool.and_eq_true] at hka
    have hts : dfHasColumn evs "timestamp" = true := by
      rw [hcons, dfHasColumn, List.any_cons, Bool.or_eq_true]
      exact Or.inl hka.1
    have hfs : dfHasColumn evs "final_score" = true := by
      rw [hcons, dfHasColumn, List.any_cons, Bool.or_eq_true]
      exact Or.inl hka.2
    have hperm : List.Perm (sortRows rows) rows := List.perm_insertionSort rowLe rows
    refine ⟨by simp [chartSection, hdict, hts, hfs, hconv], hperm,
      List.sorted_insertionSort rowLe rows, ?_⟩
    have hm := hperm.map Prod.snd
    rw [allConvert_map_snd evs rows hconv] at hm
    exact hm
  · intro h
    have hts : dfHasColumn evs "timestamp" = false := by
      rw [dfHasColumn, List.any_eq_false]
      intro x hx
      have := List.all_eq_true.mp h x hx
      simpa using this
    simp [chartSection, hdict, hts]
  · intro hts hfs
    have hf : dfHasColumn evs "final_score" = false := by
      rw [dfHasColumn, List.any_eq_false]
      intro x hx
      have := List.all_eq_true.mp hfs x hx
      simpa using this
    simp [chartSection, hdict, hts, hf]

/-- C8 witness: two well-formed events listed out of chronological
order yield the chart of both events sorted ascending by timestamp. -/
theorem c8_chart_characterization_witness :
    chartSection (.arr [c8Event1, c8Event2])
      = [RenderAction.subheader chartTitle, RenderAction.lineChart (sortRows c8Rows)]
    ∧ List.Perm (sortRows c8Rows) c8Rows
    ∧ List.Sorted rowLe (sortRows c8Rows)
    ∧ List.Perm ((sortRows c8Rows).map Prod.snd)
        ([c8Event1, c8Event2].map (fun ev => ev.get "final_score" Json.null)) :=
  (c8_chart_characterization [c8Event1, c8Event2] rfl rfl).1 c8Rows rfl rfl
